import Mathlib

/-!
Verification development for the ArchivesSpace CSV import engine
(`aspace_csv_import.py`): a shallow embedding of the CSV-to-repository
synchronization core (field mappers, change detector, duplicate policy,
row processor, batch driver) and of the resilient repository client's
retry logic, together with theorems about the embedded definitions.

Conventions of the embedding:
  * Python dictionaries representing JSON records become structures whose
    fields are `Option`-typed: `none` models an absent key, `some v` a
    present key with value `v`.
  * Network interaction is modelled by an oracle (`ClientEnv`) giving the
    server's response to each kind of request, plus an explicit log of
    network events (`NetEvent`) emitted by the row-processing functions.
  * Wall-clock concerns (`time.sleep`, timestamps, logging) are not
    modelled; they do not affect the values computed.
-/

namespace AspaceCsvImport

-- ==============================
-- CONFIGURATION (aspace_csv_import.py lines 156-188)
-- ==============================

/-- Constant `RETRY_ATTEMPTS = 3` (line 170). -/
def RETRY_ATTEMPTS : Nat := 3

/-- Constant `RETRY_DELAY = 2` seconds (line 171); the delay itself is not modelled. -/
def RETRY_DELAY : Nat := 2

/-- Constant `BATCH_SIZE = 10` (line 169); pacing sleeps are not modelled. -/
def BATCH_SIZE : Nat := 10

/-- Static fallback list of valid extent types (lines 174-187). -/
def VALID_EXTENT_TYPES : List String :=
  [ "1 inch videotape", "2 inch videotape", "3/4 inch videotape",
    "1/2 inch videotape", "Betacam", "Betamax", "VHS", "U-matic",
    "MiniDV", "videocassettes", "videoreels", "videotapes" ]

/-- Constant `RESOURCE_URI` (line 157) built from `repo_id`/`resource_id` supplied by
the external `creds.py`; the module documentation (line 132) fixes them to
repository 2, resource 7. -/
def RESOURCE_URI : String := "/repositories/2/resources/7"

-- ==============================
-- CSV ROW (one csv.DictReader row; keys per the script's column schema)
-- ==============================

/-- One CSV row. Field names map to the CSV columns:
`CATALOG_NUMBER`, `TITLE`, `ASpace Parent RefID`,
`Creation or Recording Date`, `Edit Date`, `Broadcast Date`,
`Original Format`, `DESCRIPTION`, `_TRANSFER_NOTES`.
`row.get(col, '')` on a DictReader row is total, so fields are plain
strings with `""` for blank cells. -/
structure Row where
  CATALOG_NUMBER : String := ""
  TITLE : String := ""
  aspaceParentRefID : String := ""
  creationDate : String := ""
  editDate : String := ""
  broadcastDate : String := ""
  originalFormat : String := ""
  DESCRIPTION : String := ""
  transferNotes : String := ""
deriving DecidableEq

-- ==============================
-- PYTHON str.strip
-- ==============================

/-- Python `str.strip()` whitespace class, restricted to ASCII whitespace
(the CSV data is ASCII; Unicode whitespace is not modelled). -/
def isSpaceChar (c : Char) : Bool :=
  c = ' ' ∨ c = '\t' ∨ c = '\n' ∨ c = '\r' ∨ c = '\x0b' ∨ c = '\x0c'

/-- Python `str.strip()`: drop leading and trailing whitespace. -/
def pyStrip (s : String) : String :=
  String.mk (((s.data.dropWhile isSpaceChar).reverse.dropWhile isSpaceChar).reverse)

-- ==============================
-- DATE PROCESSING (parse_date, lines 396-419)
-- ==============================

/-- Numeric value of a decimal digit character. -/
def digitVal (c : Char) : Nat := c.toNat - 48

/-- CPython `_strptime` directive `%m`, regex `1[0-2]|0[1-9]|[1-9]`:
all parses in the regex engine's backtracking preference order. -/
def reAlt_m (cs : List Char) : List (Nat × List Char) :=
  (match cs with
   | c1 :: c2 :: rest =>
     (if c1 = '1' ∧ (c2 = '0' ∨ c2 = '1' ∨ c2 = '2')
        then [(10 + digitVal c2, rest)] else []) ++
     (if c1 = '0' ∧ ('1' ≤ c2 ∧ c2 ≤ '9')
        then [(digitVal c2, rest)] else [])
   | _ => []) ++
  (match cs with
   | c1 :: rest =>
     if '1' ≤ c1 ∧ c1 ≤ '9' then [(digitVal c1, rest)] else []
   | [] => [])

/-- CPython `_strptime` directive `%d`, regex `3[01]|[12]\d|0[1-9]|[1-9]`. -/
def reAlt_d (cs : List Char) : List (Nat × List Char) :=
  (match cs with
   | c1 :: c2 :: rest =>
     (if c1 = '3' ∧ (c2 = '0' ∨ c2 = '1')
        then [(30 + digitVal c2, rest)] else []) ++
     (if (c1 = '1' ∨ c1 = '2') ∧ c2.isDigit
        then [(digitVal c1 * 10 + digitVal c2, rest)] else []) ++
     (if c1 = '0' ∧ ('1' ≤ c2 ∧ c2 ≤ '9')
        then [(digitVal c2, rest)] else [])
   | _ => []) ++
  (match cs with
   | c1 :: rest =>
     if '1' ≤ c1 ∧ c1 ≤ '9' then [(digitVal c1, rest)] else []
   | [] => [])

/-- CPython `_strptime` directive `%Y`, regex `\d\d\d\d`. -/
def reY4 : List Char → List (Nat × List Char)
  | c1 :: c2 :: c3 :: c4 :: rest =>
    if c1.isDigit ∧ c2.isDigit ∧ c3.isDigit ∧ c4.isDigit then
      [(digitVal c1 * 1000 + digitVal c2 * 100 + digitVal c3 * 10 + digitVal c4,
        rest)]
    else []
  | _ => []

/-- CPython `_strptime` directive `%y`, regex `\d\d`, with the POSIX century
rule (years 0-68 map to 2000-2068, 69-99 to 1969-1999). -/
def reY2 : List Char → List (Nat × List Char)
  | c1 :: c2 :: rest =>
    if c1.isDigit ∧ c2.isDigit then
      let raw := digitVal c1 * 10 + digitVal c2
      [(if raw ≤ 68 then 2000 + raw else 1900 + raw, rest)]
    else []
  | _ => []

/-- A literal separator character in a strptime format. -/
def reLit (ch : Char) : List Char → List (List Char)
  | [] => []
  | c :: rest => if c = ch then [rest] else []

/-- Format "%m/%d/%Y"; candidates carry `(year, month, day)`. -/
def fm_mdY (cs : List Char) : List ((Nat × Nat × Nat) × List Char) :=
  (reAlt_m cs).flatMap fun pm =>
  (reLit '/' pm.2).flatMap fun r2 =>
  (reAlt_d r2).flatMap fun pd =>
  (reLit '/' pd.2).flatMap fun r4 =>
  (reY4 r4).flatMap fun py => [((py.1, pm.1, pd.1), py.2)]

/-- Format "%m/%d/%y". -/
def fm_mdy2 (cs : List Char) : List ((Nat × Nat × Nat) × List Char) :=
  (reAlt_m cs).flatMap fun pm =>
  (reLit '/' pm.2).flatMap fun r2 =>
  (reAlt_d r2).flatMap fun pd =>
  (reLit '/' pd.2).flatMap fun r4 =>
  (reY2 r4).flatMap fun py => [((py.1, pm.1, pd.1), py.2)]

/-- Format "%Y-%m-%d". -/
def fm_Ymd (cs : List Char) : List ((Nat × Nat × Nat) × List Char) :=
  (reY4 cs).flatMap fun py =>
  (reLit '-' py.2).flatMap fun r2 =>
  (reAlt_m r2).flatMap fun pm =>
  (reLit '-' pm.2).flatMap fun r4 =>
  (reAlt_d r4).flatMap fun pd => [((py.1, pm.1, pd.1), pd.2)]

/-- Format "%Y/%m/%d". -/
def fm_Ysmd (cs : List Char) : List ((Nat × Nat × Nat) × List Char) :=
  (reY4 cs).flatMap fun py =>
  (reLit '/' py.2).flatMap fun r2 =>
  (reAlt_m r2).flatMap fun pm =>
  (reLit '/' pm.2).flatMap fun r4 =>
  (reAlt_d r4).flatMap fun pd => [((py.1, pm.1, pd.1), pd.2)]

/-- Format "%d/%m/%Y". -/
def fm_dmY (cs : List Char) : List ((Nat × Nat × Nat) × List Char) :=
  (reAlt_d cs).flatMap fun pd =>
  (reLit '/' pd.2).flatMap fun r2 =>
  (reAlt_m r2).flatMap fun pm =>
  (reLit '/' pm.2).flatMap fun r4 =>
  (reY4 r4).flatMap fun py => [((py.1, pm.1, pd.1), py.2)]

/-- Gregorian leap-year rule, as used by `datetime`'s validity check. -/
def isLeap (y : Nat) : Bool := y % 4 = 0 && (y % 100 ≠ 0 || y % 400 = 0)

/-- Days in a month, as used by `datetime`'s validity check. -/
def daysInMonth (y m : Nat) : Nat :=
  if m = 2 then (if isLeap y then 29 else 28)
  else if m = 4 ∨ m = 6 ∨ m = 9 ∨ m = 11 then 30
  else 31

/-- The `datetime(year, month, day)` constructor validity (`ValueError` when
false; the regex already bounds month and day, the constructor rejects the
rest, e.g. February 30 or year 0). -/
def validDate (y m d : Nat) : Bool :=
  decide (1 ≤ y) && decide (1 ≤ m) && decide (m ≤ 12) &&
  decide (1 ≤ d) && decide (d ≤ daysInMonth y m)

/-- Run one strptime format on the (stripped) input: the regex match must
consume the whole string (`strptime` raises "unconverted data remains"
otherwise), then the matched date is validated by the `datetime`
constructor. For these formats longer alternations precede shorter ones at
every directive, so the backtracking engine's chosen match consumes
maximally and taking the first full-consumption candidate is equivalent. -/
def tryFormat (f : List Char → List ((Nat × Nat × Nat) × List Char))
    (cs : List Char) : Option (Nat × Nat × Nat) :=
  match (f cs).filter (fun p => decide (p.2 = [])) with
  | [] => none
  | p :: _ => if validDate p.1.1 p.1.2.1 p.1.2.2 then some p.1 else none

/-- Two-digit zero padding of `strftime`. -/
def pad2 (n : Nat) : String := if n < 10 then "0" ++ toString n else toString n

/-- Four-digit zero padding of `strftime` "%Y". -/
def pad4 (n : Nat) : String :=
  if n < 10 then "000" ++ toString n
  else if n < 100 then "00" ++ toString n
  else if n < 1000 then "0" ++ toString n
  else toString n

/-- Model of `date_obj.strftime("%Y-%m-%d")` on a parsed `(year, month, day)`. -/
def fmtYMD (ymd : Nat × Nat × Nat) : String :=
  pad4 ymd.1 ++ "-" ++ pad2 ymd.2.1 ++ "-" ++ pad2 ymd.2.2

/-- The ordered format list of `parse_date` (lines 403-409):
`["%m/%d/%Y", "%m/%d/%y", "%Y-%m-%d", "%Y/%m/%d", "%d/%m/%Y"]`. -/
def formatMatchers : List (List Char → List ((Nat × Nat × Nat) × List Char)) :=
  [fm_mdY, fm_mdy2, fm_Ymd, fm_Ysmd, fm_dmY]

/-- Model of `parse_date` (lines 396-419): empty or whitespace-only input gives
`None`; otherwise the stripped string is tried against each format in
order, the first format that parses and validates wins and is re-rendered
as "%Y-%m-%d"; if none matches the result is `None` (with a logged
warning, which is not modelled). -/
def parse_date (date_string : String) : Option String :=
  if pyStrip date_string = "" then none
  else
    let cs := (pyStrip date_string).data
    match formatMatchers.findSome? (fun f => tryFormat f cs) with
    | some ymd => some (fmtYMD ymd)
    | none => none

-- ==============================
-- REPOSITORY SUB-STRUCTURES (dates, extents, notes, instances)
-- ==============================

/-- An ArchivesSpace date object (a JSON dict; `none` = key absent). -/
structure DateObj where
  date_type : Option String := none
  label : Option String := none
  begin_ : Option String := none
  expression : Option String := none
  jsonmodel_type : Option String := none
deriving DecidableEq

/-- An ArchivesSpace extent object. -/
structure Extent where
  portion : Option String := none
  number : Option String := none
  extent_type : Option String := none
  jsonmodel_type : Option String := none
deriving DecidableEq

/-- A subnote (`note_text`) inside a multipart note. -/
structure Subnote where
  jsonmodel_type : Option String := none
  content : Option String := none
deriving DecidableEq

/-- A singlepart note's `content` value: either a string or a list of
strings (`get_note_content` handles both, line 565). -/
inductive NoteContent where
  | str (s : String)
  | list (l : List String)
deriving DecidableEq

/-- An ArchivesSpace note. -/
structure Note where
  jsonmodel_type : Option String := none
  type : Option String := none
  label : Option String := none
  subnotes : Option (List Subnote) := none
  content : Option NoteContent := none
  publish : Option Bool := none
deriving DecidableEq

/-- An instance object linking to a top container (lines 538-545). -/
structure Instance where
  instance_type : Option String := none
  jsonmodel_type : Option String := none
  top_container_ref : Option String := none
deriving DecidableEq

/-- An archival object record (the JSON dict shape used for both fetched
records and create/update payloads; `none` = key absent). -/
structure AO where
  jsonmodel_type : Option String := none
  uri : Option String := none
  title : Option String := none
  component_id : Option String := none
  parent : Option String := none
  resource : Option String := none
  level : Option String := none
  publish : Option Bool := none
  dates : Option (List DateObj) := none
  extents : Option (List Extent) := none
  notes : Option (List Note) := none
  instances : Option (List Instance) := none
deriving DecidableEq

-- ==============================
-- FIELD MAPPERS (lines 421-521)
-- ==============================

/-- The `Creation or Recording Date` block of `create_date_objects`
(lines 425-434): the raw (unstripped) cell must be truthy, then the parsed
date, when present, yields one date object with label "creation". -/
def creationDateEntry (row : Row) : List DateObj :=
  if row.creationDate ≠ "" then
    match parse_date row.creationDate with
    | some ds =>
      [{ date_type := some "single", label := some "creation",
         begin_ := some ds, expression := some ds,
         jsonmodel_type := some "date" }]
    | none => []
  else []

/-- The `Edit Date` block of `create_date_objects` (lines 436-445);
label "Edited". -/
def editDateEntry (row : Row) : List DateObj :=
  if row.editDate ≠ "" then
    match parse_date row.editDate with
    | some ds =>
      [{ date_type := some "single", label := some "Edited",
         begin_ := some ds, expression := some ds,
         jsonmodel_type := some "date" }]
    | none => []
  else []

/-- The `Broadcast Date` block of `create_date_objects` (lines 447-456);
label "broadcast". -/
def broadcastDateEntry (row : Row) : List DateObj :=
  if row.broadcastDate ≠ "" then
    match parse_date row.broadcastDate with
    | some ds =>
      [{ date_type := some "single", label := some "broadcast",
         begin_ := some ds, expression := some ds,
         jsonmodel_type := some "date" }]
    | none => []
  else []

/-- Model of `create_date_objects` (lines 421-458): up to three date objects, in
column order. -/
def createDateObjects (row : Row) : List DateObj :=
  creationDateEntry row ++ editDateEntry row ++ broadcastDateEntry row

/-- Model of `create_extent_objects` (lines 464-478): one extent from the stripped
`Original Format` cell, none when it is empty. -/
def createExtentObjects (row : Row) : List Extent :=
  let original_format := pyStrip row.originalFormat
  if original_format ≠ "" then
    [{ portion := some "whole", number := some "1",
       extent_type := some original_format,
       jsonmodel_type := some "extent" }]
  else []

/-- Model of `create_notes` (lines 484-521): a `scopecontent` multipart note from
`DESCRIPTION` and a `phystech` multipart note from `_TRANSFER_NOTES`,
each omitted when its source text strips to empty. -/
def createNotes (row : Row) : List Note :=
  let description := pyStrip row.DESCRIPTION
  let scopeParts : List Subnote :=
    if description ≠ "" then
      [{ jsonmodel_type := some "note_text", content := some description }]
    else []
  let scopeNotes : List Note :=
    if scopeParts ≠ [] then
      [{ jsonmodel_type := some "note_multipart", type := some "scopecontent",
         label := some "", subnotes := some scopeParts, publish := some true }]
    else []
  let tnotes := pyStrip row.transferNotes
  let techNotes : List Note :=
    if tnotes ≠ "" then
      [{ jsonmodel_type := some "note_multipart", type := some "phystech",
         label := some "",
         subnotes := some [{ jsonmodel_type := some "note_text",
                             content := some tnotes }],
         publish := some true }]
    else []
  scopeNotes ++ techNotes

-- ==============================
-- CHANGE DETECTION (lines 556-614)
-- ==============================

/-- First subnote with truthy content, per the inner loop of
`get_note_content` (lines 561-563): `if subnote.get('content'): return`. -/
def firstTruthySub : List Subnote → Option String
  | [] => none
  | s :: rest =>
    match s.content with
    | some c => if c ≠ "" then some c else firstTruthySub rest
    | none => firstTruthySub rest

/-- Model of `get_note_content` (lines 556-568): first note of the given type that
yields content, via its subnotes or its own `content` key (list contents
are space-joined); notes of the type that yield nothing are passed over. -/
def getNoteContent : List Note → String → Option String
  | [], _ => none
  | n :: rest, note_type =>
    if n.type = some note_type then
      match n.subnotes with
      | some subs =>
        match firstTruthySub subs with
        | some c => some c
        | none => getNoteContent rest note_type
      | none =>
        match n.content with
        | some (.str s) => some s
        | some (.list l) => some (String.intercalate " " l)
        | none => getNoteContent rest note_type
    else getNoteContent rest note_type

/-- Insert-or-update on an association list, i.e. one step of building a
Python dict: an existing key keeps its position and gets the new value, a
new key is appended. -/
def pyInsert (d : List (Option String × Option String))
    (k v : Option String) : List (Option String × Option String) :=
  match d with
  | [] => [(k, v)]
  | p :: rest => if p.1 = k then (k, v) :: rest else p :: pyInsert rest k v

/-- The Python dict comprehension `{d.get('label'): d.get('begin') for d in
dates}` (lines 588-589) as an association list in insertion order with
last-write-wins values. -/
def buildPyDict (ps : List (Option String × Option String)) :
    List (Option String × Option String) :=
  ps.foldl (fun d p => pyInsert d p.1 p.2) []

/-- Lookup in the association-list rendering of a Python dict. -/
def pyLookup (d : List (Option String × Option String)) (k : Option String) :
    Option (Option String) :=
  (d.find? (fun p => decide (p.1 = k))).map (·.2)

/-- Python dict equality on the association-list rendering: the same keys
with the same values, irrespective of insertion order. -/
def pyDictEq (d1 d2 : List (Option String × Option String)) : Bool :=
  d1.all (fun p => pyLookup d2 p.1 == some p.2) &&
  d2.all (fun p => pyLookup d1 p.1 == some p.2)

/-- One entry of the `FieldDiff`: the `(old_value, new_value)` pair stored
under each changed field name by `detect_changes`. -/
inductive ChangeVal where
  | title (old : Option String) (new : String)
  | dates (old new : List (Option String × Option String))
  | extents (old new : List (Option String))
  | descr (old : Option String) (new : String)
deriving DecidableEq

/-- The old-description preview of line 610: truthy strings longer than 40
characters are truncated with an ellipsis, everything else is kept as is. -/
def previewOld (os : Option String) : Option String :=
  match os with
  | some s => if s ≠ "" ∧ s.length > 40 then some (s.take 40 ++ "...") else some s
  | none => none

/-- The new-description preview of line 611. -/
def previewNew (s : String) : String :=
  if s.length > 40 then s.take 40 ++ "..." else s

/-- Model of `detect_changes` (lines 570-614): field-by-field comparison of an
existing record against the freshly mapped row; returns the changed fields
in source order (title, dates, extents, description). -/
def detectChanges (existing_obj : AO) (row : Row) :
    List (String × ChangeVal) :=
  let new_title := pyStrip row.TITLE
  let titleCh :=
    if new_title ≠ "" ∧ existing_obj.title ≠ some new_title then
      [("title", ChangeVal.title existing_obj.title new_title)]
    else []
  let new_dates := createDateObjects row
  let existing_dates := existing_obj.dates.getD []
  let existing_begins := buildPyDict (existing_dates.map fun d => (d.label, d.begin_))
  let new_begins := buildPyDict (new_dates.map fun d => (d.label, d.begin_))
  let datesCh :=
    if pyDictEq existing_begins new_begins then []
    else [("dates", ChangeVal.dates existing_begins new_begins)]
  let new_extents := createExtentObjects row
  let existing_extent_types := (existing_obj.extents.getD []).map Extent.extent_type
  let new_extent_types := new_extents.map Extent.extent_type
  let extentsCh :=
    if existing_extent_types ≠ new_extent_types then
      [("extents", ChangeVal.extents existing_extent_types new_extent_types)]
    else []
  let existing_scope := getNoteContent (existing_obj.notes.getD []) "scopecontent"
  let new_description := pyStrip row.DESCRIPTION
  let descrCh :=
    if new_description ≠ "" ∧ existing_scope ≠ some new_description then
      [("description", ChangeVal.descr (previewOld existing_scope)
          (previewNew new_description))]
    else []
  titleCh ++ datesCh ++ extentsCh ++ descrCh

-- ==============================
-- REPOSITORY CLIENT RETRY LOGIC (make_request, lines 274-312)
-- ==============================

/-- Outcome of one HTTP attempt: a response with a status code and a
parsed body, or a raised exception (network error); `β` is the parsed-body
type, which `make_request` never inspects. -/
inductive Attempt (β : Type) where
  | resp (status : Nat) (body : β)
  | exn

/-- Model of `make_request` (lines 274-312). `env n` is the outcome of the `n`-th
HTTP attempt of this logical call, `lg n` the outcome of the `n`-th
`login()` call. Returns the value `make_request` returns (parsed body or
`None`) paired with the number of `login()` calls made. Statuses 200/201
succeed; 412 with retry budget re-authenticates and retries (a failed
re-login falls through and returns `None`); any other status or an
exception retries while `retry_count < RETRY_ATTEMPTS`, else returns
`None`. `time.sleep(RETRY_DELAY)` between attempts is not modelled. -/
def makeRequestAux {β : Type} (env : Nat → Attempt β) (lg : Nat → Bool)
    (attempt loginIdx retry_count : Nat) : Option β × Nat :=
  match env attempt with
  | .resp status body =>
    if status = 200 ∨ status = 201 then (some body, 0)
    else if h412 : status = 412 ∧ retry_count < RETRY_ATTEMPTS then
      if lg loginIdx then
        let r := makeRequestAux env lg (attempt + 1) (loginIdx + 1) (retry_count + 1)
        (r.1, r.2 + 1)
      else (none, 1)
    else if hrc : retry_count < RETRY_ATTEMPTS then
      makeRequestAux env lg (attempt + 1) loginIdx (retry_count + 1)
    else (none, 0)
  | .exn =>
    if hrc : retry_count < RETRY_ATTEMPTS then
      makeRequestAux env lg (attempt + 1) loginIdx (retry_count + 1)
    else (none, 0)
termination_by RETRY_ATTEMPTS - retry_count
decreasing_by
  · omega
  · omega
  · omega

/-- An attempt outcome that is neither a 200/201 success nor the 412
session-expiry signal: a plain failure that `make_request` retries. -/
def isPlainFailure {β : Type} : Attempt β → Prop
  | .resp s _ => ¬(s = 200 ∨ s = 201 ∨ s = 412)
  | .exn => True

-- ==============================
-- CLIENT ORACLE AND NETWORK EVENTS
-- ==============================

/-- One network interaction performed during row processing. Reads and
writes are both logged; request/retry mechanics below the client-method
level are abstracted by the `ClientEnv` oracle (they are modelled
separately by `makeRequestAux`). -/
inductive NetEvent where
  | searchComponent (catalog : String)
  | getRecord (uri : Option String)
  | searchParent (ref : String)
  | postTopContainer (indicator : String)
  | postCreate (payload : AO)
  | postUpdate (uri : Option String) (payload : AO)
deriving DecidableEq

/-- Whether a network event is a write (POST; the script issues no PUT). -/
def NetEvent.isWrite : NetEvent → Bool
  | .postTopContainer _ => true
  | .postCreate _ => true
  | .postUpdate _ _ => true
  | _ => false

/-- The repository as seen through the client's methods: a deterministic
oracle giving each method's result. `none` results model both lookup
misses and exhausted-retry `None` returns of `make_request`.
  * `validExtentTypes`: the resolved extent-type vocabulary
    (`get_extent_types`, live or fallback, cached by
    `validate_extent_type`, lines 355-370).
  * `checkComponent`: `check_component_unique_id` (lines 314-330),
    returning `(exists, uri)` exactly as the source does.
  * `fetchRecord`: `make_request("GET", existing_uri)` (line 682).
  * `getParentUri`: `get_parent_object` (lines 332-353) composed with the
    `parent['uri']` projection of line 812; search misses and failed
    fetches both give `none`.
  * `createTopContainer`: `create_top_container` (lines 372-385).
  * `postCreate` / `postUpdate`: the create / update POSTs (lines 663,
    718), giving the stored record the server returns, or `none`. -/
structure ClientEnv where
  validExtentTypes : List String
  checkComponent : String → Bool × Option String
  fetchRecord : Option String → Option AO
  getParentUri : String → Option String
  createTopContainer : String → Option String
  postCreate : AO → Option AO
  postUpdate : Option String → AO → Option AO

/-- A value returned by `create_archival_object` / `update_archival_object`
to the row processor: either one of the literal marker dicts built in the
source (dry-run / unchanged) or a record the server returned. Only the
keys `uri`, `dry_run` and `unchanged` are ever read by the caller; the
`updated` key of the dry-run update marker is never read and is not
modelled. A server record contains no `unchanged`/`dry_run` keys. -/
inductive ApiResult where
  | marker (uri : Option String) (dry_run : Bool) (unchanged : Bool)
  | record (obj : AO)
deriving DecidableEq

/-- Truthiness of `ao_result.get('unchanged')`. -/
def ApiResult.getUnchanged : ApiResult → Bool
  | .marker _ _ u => u
  | .record _ => false

/-- Truthiness of `ao_result.get('dry_run')`. -/
def ApiResult.getDryRun : ApiResult → Bool
  | .marker _ d _ => d
  | .record _ => false

/-- Model of `ao_result.get('uri', dflt)`: a marker dict carries a `uri` key (whose
value may be `None`); a server record's `uri` key falls back to the
default when absent. -/
def ApiResult.uriOrD : ApiResult → Option String → Option String
  | .marker u _ _, _ => u
  | .record o, dflt => match o.uri with | some u => some u | none => dflt

-- ==============================
-- ARCHIVAL OBJECT CREATION AND UPDATE (lines 620-725)
-- ==============================

/-- Model of `create_instances` (lines 527-550): mint a top container named after
the stripped catalog number and wrap it in one instance; empty catalog
number or failed container creation yields no instance. Returns the
instances together with the network events performed. -/
def createInstances (env : ClientEnv) (row : Row) :
    List Instance × List NetEvent :=
  let catalog_number := pyStrip row.CATALOG_NUMBER
  if catalog_number = "" then ([], [])
  else
    match env.createTopContainer catalog_number with
    | some container_uri =>
      ([{ instance_type := some "Moving Images (Video)",
          jsonmodel_type := some "instance",
          top_container_ref := some container_uri }],
       [NetEvent.postTopContainer catalog_number])
    | none => ([], [NetEvent.postTopContainer catalog_number])

/-- The `ao_data` payload built by `create_archival_object`
(lines 624-651): fixed resource/parent/level/publish, title from the
stripped `TITLE` cell falling back to the raw catalog number, component id
from the stripped catalog number, and dates/extents/notes keys present
only when the mapped lists are non-empty. `instances` is supplied by the
caller (`none` on the dry-run path, where `create_instances` is skipped). -/
def createAoData (row : Row) (parent_uri : String)
    (instances : Option (List Instance)) : AO :=
  let t := pyStrip row.TITLE
  let title := if t = "" then row.CATALOG_NUMBER else t
  let catalog_number := pyStrip row.CATALOG_NUMBER
  let dates := createDateObjects row
  let extents := createExtentObjects row
  let notes := createNotes row
  { jsonmodel_type := some "archival_object",
    resource := some RESOURCE_URI,
    parent := some parent_uri,
    level := some "item",
    publish := some true,
    title := some title,
    component_id := if catalog_number ≠ "" then some catalog_number else none,
    dates := if dates ≠ [] then some dates else none,
    extents := if extents ≠ [] then some extents else none,
    notes := if notes ≠ [] then some notes else none,
    instances := instances }

/-- Model of `create_archival_object` (lines 620-670): in dry-run mode no network
call is made and a `/dry_run/` marker is returned; otherwise instances are
created and the payload is POSTed, giving the stored record or `None`. -/
def createArchivalObject (env : ClientEnv) (row : Row) (parent_uri : String)
    (dry_run : Bool) : Option ApiResult × List NetEvent :=
  let catalog_number := pyStrip row.CATALOG_NUMBER
  if dry_run then
    (some (.marker (some ("/dry_run/" ++ catalog_number)) true false), [])
  else
    let (instances, evs) := createInstances env row
    let ao_data := createAoData row parent_uri
      (if instances ≠ [] then some instances else none)
    match env.postCreate ao_data with
    | some result => (some (.record result), evs ++ [NetEvent.postCreate ao_data])
    | none => (none, evs ++ [NetEvent.postCreate ao_data])

/-- The merge step of `update_archival_object` (lines 694-712), rendered
as one functional record update (the source mutates `existing_obj` field
by field; the four mutations touch disjoint keys): non-empty mapped values
replace the record's title/dates/extents; when new notes exist, existing
notes whose type is among the new notes' types are dropped and the new
notes appended, all other notes kept verbatim in order. -/
def mergeRowIntoRecord (existing_obj : AO) (row : Row) : AO :=
  let title := pyStrip row.TITLE
  let dates := createDateObjects row
  let extents := createExtentObjects row
  let new_notes := createNotes row
  let new_note_types := new_notes.map Note.type
  { existing_obj with
    title := if title ≠ "" then some title else existing_obj.title,
    dates := if dates ≠ [] then some dates else existing_obj.dates,
    extents := if extents ≠ [] then some extents else existing_obj.extents,
    notes :=
      if new_notes ≠ [] then
        some ((existing_obj.notes.getD []).filter
                (fun n => decide (n.type ∉ new_note_types)) ++ new_notes)
      else existing_obj.notes }

/-- Model of `update_archival_object` (lines 672-725): fetch the existing record
(fetch failure gives `(None, {})`); an empty diff returns the
`unchanged` marker without any write; otherwise the merged record is
POSTed back (or, in dry-run mode, a marker is returned without a write).
Result: `((ao_result, changes), events)`. -/
def updateArchivalObject (env : ClientEnv) (row : Row)
    (existing_uri : Option String) (dry_run : Bool) :
    (Option ApiResult × List (String × ChangeVal)) × List NetEvent :=
  match env.fetchRecord existing_uri with
  | none => ((none, []), [NetEvent.getRecord existing_uri])
  | some existing_obj =>
    let changes := detectChanges existing_obj row
    if changes = [] then
      ((some (.marker existing_uri false true), []),
       [NetEvent.getRecord existing_uri])
    else
      let merged := mergeRowIntoRecord existing_obj row
      if dry_run then
        ((some (.marker existing_uri true false), changes),
         [NetEvent.getRecord existing_uri])
      else
        match env.postUpdate existing_uri merged with
        | some result =>
          ((some (.record result), changes),
           [NetEvent.getRecord existing_uri, NetEvent.postUpdate existing_uri merged])
        | none =>
          ((none, changes),
           [NetEvent.getRecord existing_uri, NetEvent.postUpdate existing_uri merged])

-- ==============================
-- ROW PROCESSOR (process_csv_row, lines 731-837)
-- ==============================

/-- The per-row `result` dict of `process_csv_row` (lines 734-742). -/
structure RowResult where
  row_number : Nat
  catalog_number : String
  title : String
  status : String := "pending"
  message : String := ""
  uri : Option String := none
  changes : List (String × ChangeVal) := []
deriving DecidableEq

/-- The create path of `process_csv_row` (lines 802-830): require a
non-empty stripped parent ref id, resolve it to a parent uri, then create;
every failure is a terminal `error` result. -/
def processCsvRowCreate (env : ClientEnv) (row : Row) (base : RowResult)
    (dry_run : Bool) : RowResult × List NetEvent :=
  let parent_ref_id := pyStrip row.aspaceParentRefID
  if parent_ref_id = "" then
    ({ base with status := "error", message := "Missing Parent RefID" }, [])
  else
    match env.getParentUri parent_ref_id with
    | none =>
      ({ base with
          status := "error",
          message := "Parent not found: " ++ parent_ref_id },
       [NetEvent.searchParent parent_ref_id])
    | some parent_uri =>
      let (ao_result, evs) := createArchivalObject env row parent_uri dry_run
      let evs := NetEvent.searchParent parent_ref_id :: evs
      match ao_result with
      | some r =>
        ({ base with
            status := "created",
            uri := r.uriOrD (some ""),
            message := if r.getDryRun then "Would be created"
                       else "Created successfully" }, evs)
      | none =>
        ({ base with status := "error", message := "Failed to create" }, evs)

/-- Model of `process_csv_row` (lines 731-837). Ordered checks: empty stripped
catalog number gives `skipped`; a non-empty stripped `Original Format`
outside the extent-type vocabulary gives `error` (the source message
quotes the value; the quotes are dropped here); then the duplicate check
runs and the configured mode decides. Note the `fail` mode: the source
raises at line 770, but that raise happens inside the function's own
`try`, so the blanket `except Exception` at line 832 catches it and turns
it into an `error` result whose message is the exception text — the
exception never escapes `process_csv_row`. Unmatched duplicate modes fall
through to the create path, as does the no-duplicate case. -/
def processCsvRow (env : ClientEnv) (row : Row) (row_num : Nat)
    (dry_run : Bool) (duplicate_mode : String) : RowResult × List NetEvent :=
  let base : RowResult :=
    { row_number := row_num, catalog_number := row.CATALOG_NUMBER,
      title := row.TITLE }
  let catalog_number := pyStrip row.CATALOG_NUMBER
  if catalog_number = "" then
    ({ base with status := "skipped", message := "Missing catalog number" }, [])
  else
    let original_format := pyStrip row.originalFormat
    if original_format ≠ "" ∧ original_format ∉ env.validExtentTypes then
      ({ base with
          status := "error",
          message := "Invalid extent type: " ++ original_format }, [])
    else
      let ex := env.checkComponent catalog_number
      let existing := ex.1
      let existing_uri := ex.2
      let searchEv := [NetEvent.searchComponent catalog_number]
      if existing then
        if duplicate_mode = "fail" then
          ({ base with
              status := "error",
              message := "Duplicate component ID: " ++ catalog_number }, searchEv)
        else if duplicate_mode = "skip" then
          ({ base with status := "skipped", message := "Duplicate - skipped" },
           searchEv)
        else if duplicate_mode = "update" then
          let ur := updateArchivalObject env row existing_uri dry_run
          let ao_result := ur.1.1
          let changes := ur.1.2
          match ao_result with
          | some r =>
            if r.getUnchanged then
              ({ base with
                  status := "unchanged", message := "No changes needed",
                  uri := r.uriOrD existing_uri }, searchEv ++ ur.2)
            else
              ({ base with
                  status := "updated", changes := changes,
                  message := if changes ≠ [] then
                      "Updated: " ++ String.intercalate ", " (changes.map Prod.fst)
                    else "Updated",
                  uri := r.uriOrD existing_uri }, searchEv ++ ur.2)
          | none =>
            ({ base with status := "error", message := "Failed to update" },
             searchEv ++ ur.2)
        else
          let cr := processCsvRowCreate env row base dry_run
          (cr.1, searchEv ++ cr.2)
      else
        let cr := processCsvRowCreate env row base dry_run
        (cr.1, searchEv ++ cr.2)

-- ==============================
-- BATCH DRIVER (process_csv_file, lines 839-920)
-- ==============================

/-- The run `summary` dict (lines 843-854); timestamps and the mode/dry-run
echo fields are not modelled. -/
structure Summary where
  total_rows : Nat := 0
  created : Nat := 0
  updated : Nat := 0
  unchanged : Nat := 0
  failed : Nat := 0
  skipped : Nat := 0
deriving DecidableEq

/-- The per-status counter bump of lines 869-885: exactly one counter for
each of the five result statuses, none for anything else. -/
def bumpSummary (s : Summary) (status : String) : Summary :=
  if status = "created" then { s with created := s.created + 1 }
  else if status = "updated" then { s with updated := s.updated + 1 }
  else if status = "unchanged" then { s with unchanged := s.unchanged + 1 }
  else if status = "error" then { s with failed := s.failed + 1 }
  else if status = "skipped" then { s with skipped := s.skipped + 1 }
  else s

/-- The row loop of `process_csv_file` (lines 860-913). In this embedding
`processCsvRow` is total, so the per-row exception handler of lines
890-913 never fires (in the source, too, `process_csv_row` catches every
exception it raises itself, including the fail-mode duplicate raise, so
the handler is unreachable through row processing). Pacing sleeps are not
modelled. -/
def processCsvFileGo (env : ClientEnv) (dry_run : Bool)
    (duplicate_mode : String) :
    List Row → Nat → Summary → List RowResult × Summary
  | [], _, s => ([], s)
  | row :: rest, row_num, s =>
    let s1 := { s with total_rows := s.total_rows + 1 }
    let result := (processCsvRow env row row_num dry_run duplicate_mode).1
    let r := processCsvFileGo env dry_run duplicate_mode rest (row_num + 1)
      (bumpSummary s1 result.status)
    (result :: r.1, r.2)

/-- Model of `process_csv_file` (lines 839-920): process rows in input order
(numbered from 1), collecting results and the summary. -/
def processCsvFile (env : ClientEnv) (rows : List Row) (dry_run : Bool)
    (duplicate_mode : String) : List RowResult × Summary :=
  processCsvFileGo env dry_run duplicate_mode rows 1 {}

-- ==============================
-- HELPER LEMMAS
-- ==============================

/-- Keys after a Python-dict insert: an existing key keeps the key list,
a fresh key is appended. -/
lemma pyInsert_map_fst (d : List (Option String × Option String)) (k v) :
    (pyInsert d k v).map Prod.fst =
      if k ∈ d.map Prod.fst then d.map Prod.fst else d.map Prod.fst ++ [k] := by
  induction d with
  | nil => simp [pyInsert]
  | cons p rest ih =>
    by_cases h : p.1 = k
    · simp [pyInsert, h]
    · simp only [pyInsert, if_neg h, List.map_cons, ih, List.mem_cons]
      have h2 : ¬(k = p.1) := fun hk => h hk.symm
      by_cases hm : k ∈ rest.map Prod.fst <;> simp [hm, h2]

/-- The key list of a built Python dict has no duplicates. -/
lemma buildPyDict_nodup (ps : List (Option String × Option String)) :
    ((buildPyDict ps).map Prod.fst).Nodup := by
  suffices h : ∀ acc : List (Option String × Option String),
      (acc.map Prod.fst).Nodup →
      ((ps.foldl (fun d p => pyInsert d p.1 p.2) acc).map Prod.fst).Nodup by
    exact h [] (by simp)
  induction ps with
  | nil => intro acc hacc; simpa using hacc
  | cons p rest ih =>
    intro acc hacc
    simp only [List.foldl_cons]
    apply ih
    rw [pyInsert_map_fst]
    split
    · exact hacc
    · next hmem => simp [List.nodup_append, hacc, hmem]

/-- In a dict whose keys are unique, looking up a member pair's key finds
that pair's value. -/
lemma pyLookup_self (d : List (Option String × Option String))
    (hn : (d.map Prod.fst).Nodup) (p) (hp : p ∈ d) :
    pyLookup d p.1 = some p.2 := by
  induction d with
  | nil => cases hp
  | cons q rest ih =>
    simp only [List.map_cons, List.nodup_cons] at hn
    by_cases hq : q.1 = p.1
    · have hpq : p = q := by
        rcases List.mem_cons.mp hp with h | h
        · exact h
        · exact absurd (hq ▸ List.mem_map_of_mem Prod.fst h) hn.1
      subst hpq
      simp [pyLookup, List.find?]
    · have hpr : p ∈ rest := by
        rcases List.mem_cons.mp hp with h | h
        · exact absurd (h ▸ rfl) hq
        · exact h
      have := ih hn.2 hpr
      simpa [pyLookup, List.find?, hq] using this

/-- Python dict equality is reflexive on built dicts. -/
lemma pyDictEq_buildPyDict_self (ps : List (Option String × Option String)) :
    pyDictEq (buildPyDict ps) (buildPyDict ps) = true := by
  have hn := buildPyDict_nodup ps
  have hall : ∀ p ∈ buildPyDict ps,
      (pyLookup (buildPyDict ps) p.1 == some p.2) = true := by
    intro p hp
    simp [pyLookup_self _ hn p hp]
  simp only [pyDictEq, Bool.and_eq_true, List.all_eq_true]
  exact ⟨hall, hall⟩

/-- A list stored under an optional key (present iff non-empty) reads back
as itself under a `[]` default. -/
lemma getD_ite_list {α : Type} [DecidableEq α] (l : List α) :
    (if l = [] then none else some l).getD [] = l := by
  split <;> simp_all

-- ==============================
-- CLAIM THEOREMS
-- ==============================

/-- C4: For every CSV row, mapping it to dates, extents, and notes (as
done when building a create payload) and then running `detect_changes`
against a record built from that same mapping yields an empty diff. -/
theorem claim_C4_roundtrip_empty_diff (row : Row) (parent_uri : String) :
    detectChanges (createAoData row parent_uri none) row = [] := by
  by_cases ht : pyStrip row.TITLE = "" <;>
  by_cases hdesc : pyStrip row.DESCRIPTION = "" <;>
    simp [detectChanges, createAoData, ht, hdesc, getD_ite_list,
      pyDictEq_buildPyDict_self, createNotes, getNoteContent, firstTruthySub]

/-- Labels of a mapped date list. -/
def labelsOf (l : List DateObj) : List (Option String) := l.map DateObj.label

/-- An unparsable creation date yields no creation date object. -/
lemma creationDateEntry_eq_nil {row : Row}
    (h : parse_date row.creationDate = none) : creationDateEntry row = [] := by
  unfold creationDateEntry
  split
  · simp [h]
  · rfl

/-- An unparsable edit date yields no edit date object. -/
lemma editDateEntry_eq_nil {row : Row}
    (h : parse_date row.editDate = none) : editDateEntry row = [] := by
  unfold editDateEntry
  split
  · simp [h]
  · rfl

/-- An unparsable broadcast date yields no broadcast date object. -/
lemma broadcastDateEntry_eq_nil {row : Row}
    (h : parse_date row.broadcastDate = none) : broadcastDateEntry row = [] := by
  unfold broadcastDateEntry
  split
  · simp [h]
  · rfl

/-- Any member of the creation-date block has label "creation". -/
lemma mem_creationDateEntry_label {row : Row} {d : DateObj}
    (hd : d ∈ creationDateEntry row) : d.label = some "creation" := by
  unfold creationDateEntry at hd
  split at hd
  · split at hd <;> simp_all
  · simp at hd

/-- Any member of the edit-date block has label "Edited". -/
lemma mem_editDateEntry_label {row : Row} {d : DateObj}
    (hd : d ∈ editDateEntry row) : d.label = some "Edited" := by
  unfold editDateEntry at hd
  split at hd
  · split at hd <;> simp_all
  · simp at hd

/-- Any member of the broadcast-date block has label "broadcast". -/
lemma mem_broadcastDateEntry_label {row : Row} {d : DateObj}
    (hd : d ∈ broadcastDateEntry row) : d.label = some "broadcast" := by
  unfold broadcastDateEntry at hd
  split at hd
  · split at hd <;> simp_all
  · simp at hd

/-- C7: `parse_date` maps "8/1/1982" to "1982-08-01", maps "1982-08-01" to
itself, and maps "not-a-date" to `None`; and for each of the three date
columns, an unparsable non-empty value simply leaves no date object with
that column's label among the mapped dates (the mapper is total, so this
is never an error). -/
theorem claim_C7_parse_date_behaviour :
    parse_date "8/1/1982" = some "1982-08-01" ∧
    parse_date "1982-08-01" = some "1982-08-01" ∧
    parse_date "not-a-date" = none ∧
    (∀ row : Row, parse_date row.creationDate = none →
      some "creation" ∉ labelsOf (createDateObjects row)) ∧
    (∀ row : Row, parse_date row.editDate = none →
      some "Edited" ∉ labelsOf (createDateObjects row)) ∧
    (∀ row : Row, parse_date row.broadcastDate = none →
      some "broadcast" ∉ labelsOf (createDateObjects row)) := by
  refine ⟨by decide, by decide, by decide, ?created, ?edited, ?broadcast⟩
  case created =>
    intro row h hmem
    simp only [createDateObjects, labelsOf, creationDateEntry_eq_nil h,
      List.nil_append, List.map_append, List.mem_append, List.mem_map] at hmem
    rcases hmem with ⟨d, hd, hl⟩ | ⟨d, hd, hl⟩
    · rw [mem_editDateEntry_label hd] at hl; exact absurd hl (by decide)
    · rw [mem_broadcastDateEntry_label hd] at hl; exact absurd hl (by decide)
  case edited =>
    intro row h hmem
    simp only [createDateObjects, labelsOf, editDateEntry_eq_nil h,
      List.append_nil, List.map_append, List.mem_append, List.mem_map] at hmem
    rcases hmem with ⟨d, hd, hl⟩ | ⟨d, hd, hl⟩
    · rw [mem_creationDateEntry_label hd] at hl; exact absurd hl (by decide)
    · rw [mem_broadcastDateEntry_label hd] at hl; exact absurd hl (by decide)
  case broadcast =>
    intro row h hmem
    simp only [createDateObjects, labelsOf, broadcastDateEntry_eq_nil h,
      List.append_nil, List.map_append, List.mem_append, List.mem_map] at hmem
    rcases hmem with ⟨d, hd, hl⟩ | ⟨d, hd, hl⟩
    · rw [mem_creationDateEntry_label hd] at hl; exact absurd hl (by decide)
    · rw [mem_editDateEntry_label hd] at hl; exact absurd hl (by decide)

/-- Witness for C7 at concrete inputs. -/
theorem claim_C7_parse_date_behaviour_witness :
    parse_date "not-a-date" = none ∧
    some "creation" ∉
      labelsOf (createDateObjects { creationDate := "not-a-date" }) :=
  ⟨by decide,
   claim_C7_parse_date_behaviour.2.2.2.1 { creationDate := "not-a-date" }
     (by decide)⟩

/-- C2: a `make_request` call whose first attempt reports session expiry
(412) re-authenticates once and retries; when the retried attempt
succeeds, the caller receives that attempt's parsed body, with exactly one
login call recorded. -/
theorem claim_C2_session_expiry_relogin {β : Type} (env : Nat → Attempt β)
    (lg : Nat → Bool) (b body : β) (s : Nat)
    (h0 : env 0 = .resp 412 b) (hlg : lg 0 = true)
    (h1 : env 1 = .resp s body) (hs : s = 200 ∨ s = 201) :
    makeRequestAux env lg 0 0 0 = (some body, 1) := by
  rcases hs with rfl | rfl <;>
    simp [makeRequestAux, h0, h1, hlg, RETRY_ATTEMPTS]

/-- Witness for C2: a 412 followed by a 200. -/
theorem claim_C2_session_expiry_relogin_witness :
    makeRequestAux
      (fun n => if n = 0 then Attempt.resp 412 "expired" else Attempt.resp 200 "ok")
      (fun _ => true) 0 0 0 = (some "ok", 1) :=
  claim_C2_session_expiry_relogin _ _ "expired" "ok" 200 rfl rfl rfl (Or.inl rfl)

/-- All-plain-failure runs return `None` with no login calls: the
generalized retry-exhaustion lemma behind C5. -/
lemma makeRequestAux_all_plain_failures {β : Type} (env : Nat → Attempt β)
    (lg : Nat → Bool) :
    ∀ (k a li rc : Nat), rc + k = RETRY_ATTEMPTS →
      (∀ i ≤ k, isPlainFailure (env (a + i))) →
      makeRequestAux env lg a li rc = (none, 0) := by
  intro k
  induction k with
  | zero =>
    intro a li rc hrc hfail
    have h0 := hfail 0 (Nat.le_refl 0)
    rw [makeRequestAux]
    simp only [Nat.add_zero] at h0
    cases henv : env a with
    | resp s b =>
      rw [henv] at h0
      simp only [isPlainFailure] at h0
      have hs1 : ¬(s = 200 ∨ s = 201) := fun h => h0 (h.elim Or.inl (Or.inr ∘ Or.inl))
      have hlt : ¬(rc < RETRY_ATTEMPTS) := by omega
      simp [hs1, hlt]
    | exn =>
      have hlt : ¬(rc < RETRY_ATTEMPTS) := by omega
      simp [hlt]
  | succ k ih =>
    intro a li rc hrc hfail
    have h0 := hfail 0 (Nat.zero_le _)
    have hrest : ∀ i ≤ k, isPlainFailure (env (a + 1 + i)) := by
      intro i hi
      have := hfail (i + 1) (by omega)
      simpa [Nat.add_assoc, Nat.add_comm 1 i] using this
    have hnext := ih (a + 1) li (rc + 1) (by omega) hrest
    rw [makeRequestAux]
    simp only [Nat.add_zero] at h0
    cases henv : env a with
    | resp s b =>
      rw [henv] at h0
      simp only [isPlainFailure] at h0
      have hs1 : ¬(s = 200 ∨ s = 201) := fun h => h0 (h.elim Or.inl (Or.inr ∘ Or.inl))
      have hs412 : s ≠ 412 := fun h => h0 (Or.inr (Or.inr h))
      have hlt : rc < RETRY_ATTEMPTS := by omega
      simp [hs1, hs412, hlt, hnext]
    | exn =>
      have hlt : rc < RETRY_ATTEMPTS := by omega
      simp [hlt, hnext]

/-- C5 (amended): `make_request` returns the parsed body when the response
status is 200 or 201 (not on every 2xx status, see the counterexample);
when every attempt is a plain failure (neither 200/201 nor the 412 expiry
signal), it retries up to the `RETRY_ATTEMPTS` ceiling and returns `None`
with no login call, so `None` means the operation did not happen. -/
theorem claim_C5_make_request_success_and_exhaustion {β : Type} :
    (∀ (env : Nat → Attempt β) (lg : Nat → Bool) (s : Nat) (b : β),
      env 0 = .resp s b → (s = 200 ∨ s = 201) →
      makeRequestAux env lg 0 0 0 = (some b, 0)) ∧
    (∀ (env : Nat → Attempt β) (lg : Nat → Bool),
      (∀ n ≤ RETRY_ATTEMPTS, isPlainFailure (env n)) →
      makeRequestAux env lg 0 0 0 = (none, 0)) := by
  constructor
  · intro env lg s b h0 hs
    rcases hs with rfl | rfl <;> simp [makeRequestAux, h0]
  · intro env lg hfail
    exact makeRequestAux_all_plain_failures env lg RETRY_ATTEMPTS 0 0 0
      (by omega) (fun i hi => by simpa using hfail i hi)

/-- Counterexample for C5 as stated: status 204 is a 2xx success, yet
`make_request` does not return the parsed body — it treats 204 as a
failure, exhausts its retries and returns `None`. -/
theorem claim_C5_counterexample_204 :
    200 ≤ 204 ∧ 204 < 300 ∧
    makeRequestAux (fun _ => Attempt.resp 204 "x") (fun _ => true) 0 0 0
      = (none, 0) := by
  refine ⟨by omega, by omega, ?_⟩
  simp [makeRequestAux, RETRY_ATTEMPTS]

/-- Witness for C5 (amended) at concrete inputs. -/
theorem claim_C5_make_request_success_and_exhaustion_witness :
    makeRequestAux (fun _ => Attempt.resp 200 "ok") (fun _ => true) 0 0 0
      = (some "ok", 0) ∧
    makeRequestAux (fun _ => Attempt.resp 500 "err") (fun _ => true) 0 0 0
      = (none, 0) :=
  ⟨claim_C5_make_request_success_and_exhaustion.1 _ _ 200 "ok" rfl (Or.inl rfl),
   claim_C5_make_request_success_and_exhaustion.2 _ _
     (fun n _ => by simp [isPlainFailure])⟩

/-- C8: a row whose catalog number strips to empty is skipped before any
client interaction: no network event at all, in particular no write. -/
theorem claim_C8_empty_catalog_skipped (env : ClientEnv) (row : Row)
    (row_num : Nat) (dry_run : Bool) (duplicate_mode : String)
    (h : pyStrip row.CATALOG_NUMBER = "") :
    (processCsvRow env row row_num dry_run duplicate_mode).1.status = "skipped" ∧
    (processCsvRow env row row_num dry_run duplicate_mode).2 = [] := by
  simp [processCsvRow, h]

/-- A client oracle on which every lookup misses and every write fails;
used to instantiate hypotheses at concrete inputs. -/
def trivialEnv : ClientEnv where
  validExtentTypes := VALID_EXTENT_TYPES
  checkComponent := fun _ => (false, none)
  fetchRecord := fun _ => none
  getParentUri := fun _ => none
  createTopContainer := fun _ => none
  postCreate := fun _ => none
  postUpdate := fun _ _ => none

/-- Witness for C8: a whitespace-only catalog number. -/
theorem claim_C8_empty_catalog_skipped_witness :
    (processCsvRow trivialEnv { CATALOG_NUMBER := "  " } 1 false "skip").1.status
        = "skipped" ∧
    (processCsvRow trivialEnv { CATALOG_NUMBER := "  " } 1 false "skip").2 = [] :=
  claim_C8_empty_catalog_skipped trivialEnv { CATALOG_NUMBER := "  " } 1 false
    "skip" (by decide)

/-- The update path never inspects the row's parent ref id. -/
lemma updateArchivalObject_parent_irrelevant (env : ClientEnv) (row : Row)
    (p : String) (u : Option String) (d : Bool) :
    updateArchivalObject env { row with aspaceParentRefID := p } u d =
      updateArchivalObject env row u d := rfl

/-- C9: when an existing match is found and the mode is `update`, the
result of `process_csv_row` is independent of the `ASpace Parent RefID`
column — the missing-parent and parent-lookup checks live on the create
path only. -/
theorem claim_C9_update_ignores_parent_ref (env : ClientEnv) (row : Row)
    (p : String) (row_num : Nat) (dry_run : Bool)
    (h : (env.checkComponent (pyStrip row.CATALOG_NUMBER)).1 = true) :
    processCsvRow env { row with aspaceParentRefID := p } row_num dry_run "update"
      = processCsvRow env row row_num dry_run "update" := by
  unfold processCsvRow
  simp only [updateArchivalObject_parent_irrelevant, h, if_true]

/-- A client oracle reporting an existing match whose stored record is the
empty dict; all writes fail. Used to instantiate update-path hypotheses. -/
def matchEnv : ClientEnv where
  validExtentTypes := VALID_EXTENT_TYPES
  checkComponent := fun _ => (true, some "/repositories/2/archival_objects/7")
  fetchRecord := fun _ => some {}
  getParentUri := fun _ => none
  createTopContainer := fun _ => none
  postCreate := fun _ => none
  postUpdate := fun _ _ => none

/-- Witness for C9: a row whose parent ref id is blanked out is processed
identically, and still comes back `unchanged`. -/
theorem claim_C9_update_ignores_parent_ref_witness :
    processCsvRow matchEnv
        { CATALOG_NUMBER := "A1", aspaceParentRefID := "" } 1 false "update"
      = processCsvRow matchEnv
        { CATALOG_NUMBER := "A1", aspaceParentRefID := "abc" } 1 false "update" ∧
    (processCsvRow matchEnv
        { CATALOG_NUMBER := "A1", aspaceParentRefID := "" } 1 false
        "update").1.status = "unchanged" :=
  ⟨claim_C9_update_ignores_parent_ref matchEnv
      { CATALOG_NUMBER := "A1", aspaceParentRefID := "abc" } "" 1 false rfl,
   by decide⟩

/-- C3 (amended): in `update` mode, when the duplicate check finds a
match, the record fetch succeeds and the computed diff is empty, the
row's status is `unchanged` and no write request is issued. The original
claim's further consequence — that re-running an update pass against
unchanged source data always yields `unchanged` — does NOT hold in the
source: when the stored record carries dates or extents that the row maps
to empty, `detect_changes` (lines 584-602) keeps reporting a diff while
the merge (lines 699-705) replaces a field only when its newly mapped
list is non-empty and so never clears it; each re-run then submits a
record identical to the stored one and reports `updated`, never
`unchanged` (see the counterexample below). -/
theorem claim_C3_empty_diff_unchanged_no_write (env : ClientEnv) (row : Row)
    (row_num : Nat) (dry_run : Bool) (u : Option String) (obj : AO)
    (hcat : pyStrip row.CATALOG_NUMBER ≠ "")
    (hfmt : pyStrip row.originalFormat = "" ∨
      pyStrip row.originalFormat ∈ env.validExtentTypes)
    (hcc : env.checkComponent (pyStrip row.CATALOG_NUMBER) = (true, u))
    (hfetch : env.fetchRecord u = some obj)
    (hdiff : detectChanges obj row = []) :
    (processCsvRow env row row_num dry_run "update").1.status = "unchanged" ∧
    (processCsvRow env row row_num dry_run "update").2.filter NetEvent.isWrite
      = [] := by
  have hex : ¬(pyStrip row.originalFormat ≠ "" ∧
      pyStrip row.originalFormat ∉ env.validExtentTypes) := by
    rcases hfmt with h | h <;> simp [h]
  simp [processCsvRow, updateArchivalObject, hcat, hex, hcc, hfetch, hdiff,
    ApiResult.getUnchanged, NetEvent.isWrite]

/-- Witness for C3: an existing empty record against an all-blank row. -/
theorem claim_C3_empty_diff_unchanged_no_write_witness :
    (processCsvRow matchEnv { CATALOG_NUMBER := "A1" } 1 false
        "update").1.status = "unchanged" ∧
    (processCsvRow matchEnv { CATALOG_NUMBER := "A1" } 1 false
        "update").2.filter NetEvent.isWrite = [] :=
  claim_C3_empty_diff_unchanged_no_write matchEnv { CATALOG_NUMBER := "A1" }
    1 false (some "/repositories/2/archival_objects/7") {}
    (by decide) (Or.inl (by decide)) rfl rfl (by decide)

/-- An existing record carrying a creation date that the counterexample
row does not map: the stored state the update pass can never reconcile. -/
def objC3x : AO :=
  { dates := some [{ date_type := some "single", label := some "creation",
                     begin_ := some "1982-08-01",
                     expression := some "1982-08-01",
                     jsonmodel_type := some "date" }] }

/-- The counterexample row: a bare catalog number, mapping no dates,
extents or notes — "unchanged source data" on every pass. -/
def rowC3x : Row := { CATALOG_NUMBER := "A1" }

/-- Oracle for the C3 counterexample: the match exists, the fetch returns
`objC3x`, and the update POST succeeds, the server storing exactly the
submitted record. -/
def envC3x : ClientEnv where
  validExtentTypes := VALID_EXTENT_TYPES
  checkComponent := fun _ => (true, some "/repositories/2/archival_objects/7")
  fetchRecord := fun _ => some objC3x
  getParentUri := fun _ => none
  createTopContainer := fun _ => none
  postCreate := fun _ => none
  postUpdate := fun _ merged => some merged

/-- Counterexample to C3's re-run consequence: against `objC3x` the diff
is never empty, yet the merged record the pass submits is byte-identical
to the stored one — so the repository state is the same on every pass and
each re-run of the very same update pass reports `updated`, never
`unchanged`. -/
theorem claim_C3_counterexample_rerun_never_unchanged :
    detectChanges objC3x rowC3x ≠ [] ∧
    mergeRowIntoRecord objC3x rowC3x = objC3x ∧
    (processCsvRow envC3x rowC3x 1 false "update").1.status = "updated" ∧
    (processCsvRow envC3x rowC3x 1 false "update").1.status ≠ "unchanged" :=
  ⟨by decide, rfl, rfl, by decide⟩

/-- C6: every submitted update POSTs exactly the merged record, in which
every existing note whose type is not among the newly mapped note types is
preserved verbatim, and (when new notes exist) the notes key is exactly
those preserved notes followed by the new notes — notes of the replaced
types are gone. -/
theorem claim_C6_update_preserves_untouched_notes (env : ClientEnv)
    (row : Row) (u : Option String) (obj : AO)
    (hfetch : env.fetchRecord u = some obj)
    (hdiff : detectChanges obj row ≠ []) :
    (updateArchivalObject env row u false).2.filter NetEvent.isWrite
      = [NetEvent.postUpdate u (mergeRowIntoRecord obj row)] ∧
    (∀ nt ∈ obj.notes.getD [],
      nt.type ∉ (createNotes row).map Note.type →
      nt ∈ (mergeRowIntoRecord obj row).notes.getD []) ∧
    (createNotes row ≠ [] →
      (mergeRowIntoRecord obj row).notes =
        some ((obj.notes.getD []).filter
            (fun nt => decide (nt.type ∉ (createNotes row).map Note.type))
          ++ createNotes row)) := by
  refine ⟨?writes, ?preserved, ?replaced⟩
  case writes =>
    unfold updateArchivalObject
    rw [hfetch]
    simp only [hdiff, if_neg, Bool.false_eq_true, if_false]
    cases env.postUpdate u (mergeRowIntoRecord obj row) <;>
      simp [NetEvent.isWrite, hdiff]
  case preserved =>
    intro nt hmem hty
    by_cases hn : createNotes row = []
    · simp [mergeRowIntoRecord, hn]
      exact hmem
    · simp only [mergeRowIntoRecord, if_neg, hn, ne_eq, not_false_iff,
        if_true, Option.getD_some]
      refine List.mem_append_left _ ?_
      rw [List.mem_filter]
      exact ⟨hmem, by simpa using hty⟩
  case replaced =>
    intro hn
    simp [mergeRowIntoRecord, hn]

/-- A note of a type (`odd`) that the row mappers never produce. -/
def noteOdd : Note := { type := some "odd", content := some (.str "keep me") }

/-- An existing record carrying `noteOdd` and an old title. -/
def objC6 : AO := { title := some "Old title", notes := some [noteOdd] }

/-- Oracle whose record fetch returns `objC6`. -/
def envC6 : ClientEnv := { trivialEnv with fetchRecord := fun _ => some objC6 }

/-- Row used in the C6 witness: changes the title and writes a
`scopecontent` note. -/
def rowC6 : Row :=
  { CATALOG_NUMBER := "A1", TITLE := "New title", DESCRIPTION := "New scope" }

/-- Witness for C6: the odd-typed note survives a submitted update. -/
theorem claim_C6_update_preserves_untouched_notes_witness :
    (updateArchivalObject envC6 rowC6 (some "/x") false).2.filter
        NetEvent.isWrite
      = [NetEvent.postUpdate (some "/x") (mergeRowIntoRecord objC6 rowC6)] ∧
    noteOdd ∈ (mergeRowIntoRecord objC6 rowC6).notes.getD [] :=
  ⟨(claim_C6_update_preserves_untouched_notes envC6 rowC6 (some "/x") objC6
      rfl (by decide)).1,
   (claim_C6_update_preserves_untouched_notes envC6 rowC6 (some "/x") objC6
      rfl (by decide)).2.1 noteOdd (by decide) (by decide)⟩

/-- The create path only ever produces `created` or `error`. -/
lemma processCsvRowCreate_status (env : ClientEnv) (row : Row)
    (base : RowResult) (dry_run : Bool) :
    (processCsvRowCreate env row base dry_run).1.status = "created" ∨
    (processCsvRowCreate env row base dry_run).1.status = "error" := by
  simp only [processCsvRowCreate]
  repeat' split
  all_goals simp

/-- Every row result carries one of the five terminal statuses; the
initial `pending` never escapes. -/
lemma processCsvRow_status_mem (env : ClientEnv) (row : Row) (row_num : Nat)
    (dry_run : Bool) (duplicate_mode : String) :
    (processCsvRow env row row_num dry_run duplicate_mode).1.status ∈
      (["created", "updated", "unchanged", "skipped", "error"] : List String) := by
  simp only [processCsvRow]
  repeat' split
  all_goals
    first
    | (simp; done)
    | (rcases processCsvRowCreate_status env row
        { row_number := row_num, catalog_number := row.CATALOG_NUMBER,
          title := row.TITLE } dry_run with h | h <;> simp [h])

/-- The counters a `bumpSummary` can touch; `total_rows` is not one. -/
lemma bumpSummary_total (s : Summary) (st : String) :
    (bumpSummary s st).total_rows = s.total_rows := by
  unfold bumpSummary
  repeat' split
  all_goals rfl

/-- Sum of the five per-status counters of a summary. -/
def sumCounters (s : Summary) : Nat :=
  s.created + s.updated + s.unchanged + s.skipped + s.failed

/-- A bump at one of the five statuses raises the counter sum by one. -/
lemma bumpSummary_sum (s : Summary) (st : String)
    (h : st ∈ (["created", "updated", "unchanged", "skipped", "error"] :
      List String)) :
    sumCounters (bumpSummary s st) = sumCounters s + 1 := by
  fin_cases h <;> simp [bumpSummary, sumCounters] <;> omega

/-- Loop invariant of the batch driver: row results are one per input row,
every status is terminal, and counters track rows one-for-one. -/
lemma processCsvFileGo_spec (env : ClientEnv) (dry_run : Bool)
    (duplicate_mode : String) :
    ∀ (rows : List Row) (row_num : Nat) (s : Summary),
      (processCsvFileGo env dry_run duplicate_mode rows row_num s).1.length
          = rows.length ∧
      (∀ r ∈ (processCsvFileGo env dry_run duplicate_mode rows row_num s).1,
        r.status ∈ (["created", "updated", "unchanged", "skipped", "error"] :
          List String)) ∧
      (processCsvFileGo env dry_run duplicate_mode rows row_num s).2.total_rows
          = s.total_rows + rows.length ∧
      sumCounters (processCsvFileGo env dry_run duplicate_mode rows row_num s).2
          = sumCounters s + rows.length := by
  intro rows
  induction rows with
  | nil => intro row_num s; simp [processCsvFileGo]
  | cons row rest ih =>
    intro row_num s
    have hst := processCsvRow_status_mem env row row_num dry_run duplicate_mode
    have hrec := ih (row_num + 1)
      (bumpSummary { s with total_rows := s.total_rows + 1 }
        (processCsvRow env row row_num dry_run duplicate_mode).1.status)
    refine ⟨?_, ?_, ?_, ?_⟩
    · simp [processCsvFileGo, hrec.1]
    · intro r hr
      simp only [processCsvFileGo, List.mem_cons] at hr
      rcases hr with rfl | hr
      · exact hst
      · exact hrec.2.1 r hr
    · simp only [processCsvFileGo, List.length_cons]
      rw [hrec.2.2.1, bumpSummary_total]
      simp only [Summary.total_rows]
      omega
    · simp only [processCsvFileGo, List.length_cons]
      rw [hrec.2.2.2, bumpSummary_sum _ _ hst]
      have hse : sumCounters { s with total_rows := s.total_rows + 1 }
          = sumCounters s := rfl
      rw [hse]
      omega

/-- C10: a run that reads every input row yields exactly one result per
row, each with a status among {created, updated, unchanged, skipped,
error}; exactly one summary counter is bumped per row, so the counters sum
to the row total. -/
theorem claim_C10_summary_invariant (env : ClientEnv) (rows : List Row)
    (dry_run : Bool) (duplicate_mode : String) :
    (processCsvFile env rows dry_run duplicate_mode).1.length = rows.length ∧
    (∀ r ∈ (processCsvFile env rows dry_run duplicate_mode).1,
      r.status ∈ (["created", "updated", "unchanged", "skipped", "error"] :
        List String)) ∧
    (processCsvFile env rows dry_run duplicate_mode).2.created
        + (processCsvFile env rows dry_run duplicate_mode).2.updated
        + (processCsvFile env rows dry_run duplicate_mode).2.unchanged
        + (processCsvFile env rows dry_run duplicate_mode).2.skipped
        + (processCsvFile env rows dry_run duplicate_mode).2.failed
      = (processCsvFile env rows dry_run duplicate_mode).2.total_rows := by
  have h := processCsvFileGo_spec env dry_run duplicate_mode rows 1 {}
  refine ⟨h.1, h.2.1, ?_⟩
  have h1 := h.2.2.1
  have h2 := h.2.2.2
  simp only [sumCounters, Summary.total_rows, Summary.created, Summary.updated,
    Summary.unchanged, Summary.skipped, Summary.failed] at h1 h2
  unfold processCsvFile
  omega

/-- Oracle for the C1 run: catalog "A1" already exists, "B2" does not, and
parent ref "p1" resolves; creates succeed. -/
def envC1 : ClientEnv where
  validExtentTypes := VALID_EXTENT_TYPES
  checkComponent := fun c =>
    if c = "A1" then (true, some "/repositories/2/archival_objects/1")
    else (false, none)
  fetchRecord := fun _ => none
  getParentUri := fun r =>
    if r = "p1" then some "/repositories/2/archival_objects/9" else none
  createTopContainer := fun c => some ("/repositories/2/top_containers/" ++ c)
  postCreate := fun ao =>
    some { ao with uri := some "/repositories/2/archival_objects/100" }
  postUpdate := fun _ _ => none

/-- The duplicate row of the C1 run. -/
def rowDupC1 : Row := { CATALOG_NUMBER := "A1" }

/-- The fresh row after the duplicate in the C1 run. -/
def rowNewC1 : Row := { CATALOG_NUMBER := "B2", aspaceParentRefID := "p1" }

/-- C1 (code bug): in `fail` mode a duplicate in row 1 does NOT terminate
the batch. The raise at line 770 is caught by `process_csv_row`'s own
blanket handler (line 832), so the duplicate becomes an ordinary `error`
result and row 2 is still processed (here: created). This contradicts the
spec, the CLI help ("Stop import on first duplicate") and the dead
propagation handler at lines 890-902 of the source. -/
theorem claim_C1_fail_mode_does_not_abort_batch :
    (processCsvFile envC1 [rowDupC1, rowNewC1] false "fail").1.map
        RowResult.status = ["error", "created"] ∧
    (processCsvFile envC1 [rowDupC1, rowNewC1] false "fail").2.total_rows = 2 ∧
    (processCsvFile envC1 [rowDupC1, rowNewC1] false "fail").2.failed = 1 ∧
    (processCsvFile envC1 [rowDupC1, rowNewC1] false "fail").2.created = 1 :=
  ⟨rfl, rfl, rfl, rfl⟩
